import Mathlib

/-!
Shallow embedding of the EDC orchestrator (Flask app) transfer workflow:
`app/resources/transfer.py`, `app/resources/status.py`,
`app/utils/error_handling.py`, `app/utils/storage.py`.

Python dicts become association lists over a JSON value type; the shared
orchestration store becomes an association list from identifiers to records;
network I/O and the filesystem are oracle parameters that decide the outcome
of each external call; wall-clock time is a string parameter.
-/

/-- JSON-like values, the shape of Python dict/list/str/int/bool/None data. -/
inductive Json where
  | null
  | str (s : String)
  | num (n : Int)
  | bool (b : Bool)
  | arr (xs : List Json)
  | obj (kvs : List (String × Json))

/-- Lookup in an association list, mirroring Python dict.get: first (and in
practice only) binding of the key. -/
def alistGet {α : Type} (d : List (String × α)) (k : String) : Option α :=
  (d.find? (fun p => p.1 = k)).map (fun p => p.2)

/-- Python dict assignment d[k] = v: replace the binding in place when the key
exists, else append. -/
def alistSet {α : Type} : List (String × α) → String → α → List (String × α)
  | [], k, v => [(k, v)]
  | p :: rest, k, v => if p.1 = k then (k, v) :: rest else p :: alistSet rest k v

/-- A Python dict of JSON values. -/
abbrev Dict := List (String × Json)

/-- Python dict.update(upds): assign each binding of upds in order. -/
def dictUpdate (d : Dict) (upds : Dict) : Dict :=
  upds.foldl (fun acc p => alistSet acc p.1 p.2) d

/-- Lookup on a JSON object (Python .get on a dict value): none on non-objects
and on absent keys. -/
def jsonGet : Json → String → Option Json
  | Json.obj kvs, k => alistGet kvs k
  | _, _ => none

/-- Python truthiness of an optional JSON value (absent keys are falsy, as are
None, empty string, zero, False and empty containers). -/
def truthy : Option Json → Bool
  | none => false
  | some Json.null => false
  | some (Json.str s) => s ≠ ""
  | some (Json.num n) => n ≠ 0
  | some (Json.bool b) => b
  | some (Json.arr xs) => !xs.isEmpty
  | some (Json.obj kvs) => !kvs.isEmpty

/-- A Flask response: JSON body plus the HTTP status code set on the response
object (jsonify defaults to 200). -/
structure HttpResponse where
  body : Json
  statusCode : Nat

/-- app/utils/error_handling.py create_success_response.  The first parameter
is status_code; it is typed as Json because the function is dynamically typed
in the source and one call site (status.py) passes a payload dict there. -/
def create_success_response (status_code : Json) (data : Json)
    (orchestration_id : Option String) : HttpResponse :=
  match orchestration_id with
  | some oidv =>
      { body := Json.obj [("status", Json.str "SUCCESS"), ("status_code", status_code),
          ("orchestration_id", Json.str oidv), ("response", data)],
        statusCode := 200 }
  | none =>
      { body := Json.obj [("status", Json.str "SUCCESS"), ("status_code", status_code),
          ("response", data)],
        statusCode := 200 }

/-- app/utils/error_handling.py create_error_response: body embeds the status
code and the HTTP status of the response object is set to it. -/
def create_error_response (message : Json) (details : Json) (status_code : Nat) :
    HttpResponse :=
  { body := Json.obj [("message", message), ("status", Json.str "ERROR"),
      ("status_code", Json.num (Int.ofNat status_code)), ("details", details)],
    statusCode := status_code }

/-- One orchestration process record (a Python dict). -/
abbrev Record := Dict

/-- app/utils/storage.py orchestration_store: identifier-keyed records.  The
lock discipline serialises every access, so a run is modelled as a sequence of
store states. -/
abbrev Store := List (String × Record)

/-- app/utils/helpers.py import_time is modelled as an explicit timestamp
string parameter threaded to each mutation. -/
abbrev Timestamp := String

/-- TransferProcessResource._update_orchestration_status: merge status,
updated_at and the keyword fields into the record behind the `if process:`
guard (transfer.py:106).  That guard is a Python truthiness test: it skips the
update both when store.get returned None (identifier absent) and when the
record is an empty - hence falsy - dict. -/
def update_orchestration_status (store : Store) (now : Timestamp)
    (orchestration_id : String) (status : String) (kwargs : Dict) : Store :=
  match alistGet store orchestration_id with
  | none => store
  | some process =>
      if process.isEmpty then store
      else
        alistSet store orchestration_id
          (dictUpdate process
            (("status", Json.str status) :: ("updated_at", Json.str now) :: kwargs))

/-- Failure of an external HTTP call made through app/utils/helpers.py
make_request (which calls raise_for_status) or of processing its body.
httpError carries the upstream status code and raw body text. -/
inductive ReqFailure where
  | httpError (code : Nat) (text : String)
  | timeout (msg : String)
  | connectionError (msg : String)
  | other (msg : String)

/-- The string rendering Python would produce via str(exc); the exact text of
library exception messages is abstracted, only its dependence on the failure
matters to the spec. -/
def ReqFailure.excStr : ReqFailure → String
  | .httpError code text => s!"{code} Error: {text}"
  | .timeout msg => msg
  | .connectionError msg => msg
  | .other msg => msg

/-- A 2xx response from make_request: response.json() may itself fail
(non-JSON body), which raises at the call site. -/
structure EdcOkResponse where
  jsonResult : Except String Json
  text : String

/-- Outcome of one make_request call (raise_for_status already applied). -/
abbrev ReqResult := Except ReqFailure EdcOkResponse

/-- Python exceptions that propagate between the orchestrator's handlers. -/
inductive PyExc where
  | reqFailure (f : ReqFailure)
  | valueError (msg : String)
  | keyError (key : String)
  | typeError (msg : String)
  | otherExc (msg : String)

def PyExc.excStr : PyExc → String
  | .reqFailure f => f.excStr
  | .valueError msg => msg
  | .keyError key => key
  | .typeError msg => msg
  | .otherExc msg => msg

/-- str(last_exception) at transfer.py:345, where last_exception may still be
None (str(None) = "None"). -/
def lastExcStr : Option ReqFailure → String
  | none => "None"
  | some f => f.excStr

/-- Observable side effects of the EDR retrieval loop: the fixed-delay sleeps
and the polling requests, in order. -/
inductive Ev where
  | sleep (seconds : Nat)
  | attemptReq (attempt : Nat)

/-- Result of TransferProcessResource._retrieve_data_address: the store after
its updates, the Flask response returned, and the event trace. -/
structure RetrieveResult where
  store : Store
  response : HttpResponse
  trace : List Ev

/-- The loop body of _retrieve_data_address (transfer.py:316-343), recursing on
the remaining iterations of range(DATA_ADDRESS_MAX_RETRIES).  poll gives the
outcome of the GET for a given attempt index; a failed attempt only logs and
records last_exception; response.json() failure on a 2xx response is also
caught by the blanket except. -/
def retrieveAux (poll : Nat → ReqResult) (delay : Nat) (now : Timestamp)
    (orchestration_id : String) (store : Store) :
    Nat → Nat → Option ReqFailure → RetrieveResult
  | _, 0, lastExc =>
      { store := update_orchestration_status store now orchestration_id "FAILED"
          [("error", Json.str (lastExcStr lastExc))]
        response := create_error_response (Json.str "Data address retrieval failed")
          (Json.str (lastExcStr lastExc)) 500
        trace := [] }
  | attempt, remaining + 1, _lastExc =>
      let pre : List Ev := if attempt > 0 then [Ev.sleep delay] else []
      match poll attempt with
      | Except.ok resp =>
          match resp.jsonResult with
          | Except.ok j =>
              { store := update_orchestration_status store now orchestration_id
                  "DATA_ADDRESS_RETRIEVED" [("data_address", j)]
                response := create_success_response (Json.num 200) j none
                trace := pre ++ [Ev.attemptReq attempt] }
          | Except.error m =>
              let rest := retrieveAux poll delay now orchestration_id store
                (attempt + 1) remaining (some (ReqFailure.other m))
              { rest with trace := pre ++ [Ev.attemptReq attempt] ++ rest.trace }
      | Except.error exc =>
          let rest := retrieveAux poll delay now orchestration_id store
            (attempt + 1) remaining (some exc)
          { rest with trace := pre ++ [Ev.attemptReq attempt] ++ rest.trace }

/-- TransferProcessResource._retrieve_data_address (transfer.py:312-350). -/
def retrieve_data_address (poll : Nat → ReqResult) (delay maxRetries : Nat)
    (now : Timestamp) (orchestration_id : String) (store : Store) : RetrieveResult :=
  retrieveAux poll delay now orchestration_id store 0 maxRetries none

/-- The events of loop iteration a: a sleep when a > 0, then the request. -/
def attemptEvs (delay : Nat) (a : Nat) : List Ev :=
  (if a > 0 then [Ev.sleep delay] else []) ++ [Ev.attemptReq a]

/-- Canonical trace of n consecutive loop iterations starting at index a. -/
def traceFor (delay : Nat) (a : Nat) : Nat → List Ev
  | 0 => []
  | n + 1 => attemptEvs delay a ++ traceFor delay (a + 1) n

def isAttemptEv : Ev → Bool
  | Ev.attemptReq _ => true
  | _ => false

def isSleepEv : Ev → Bool
  | Ev.sleep _ => true
  | _ => false

def countAttempts (t : List Ev) : Nat := t.countP isAttemptEv

def countSleeps (t : List Ev) : Nat := t.countP isSleepEv

/-- Value of field k of the record stored under oid. -/
def storeRecordField (store : Store) (oid k : String) : Option Json :=
  (alistGet store oid).bind (fun r => alistGet r k)

/-- Connector double for the witnesses: fails the first attempt, succeeds on
the second. -/
def pollW : Nat → ReqResult :=
  fun i =>
    if i = 0 then Except.error (ReqFailure.timeout "timed out")
    else Except.ok
      { jsonResult := Except.ok (Json.obj [("authorization", Json.str "tok")])
        text := "" }

def okW : EdcOkResponse :=
  { jsonResult := Except.ok (Json.obj [("authorization", Json.str "tok")])
    text := "" }

def EW : Nat → ReqFailure := fun _ => ReqFailure.timeout "timed out"

def recW : Record :=
  [("status", Json.str "INITIALIZING"), ("type", Json.str "combined"),
   ("created_at", Json.str "t0"), ("updated_at", Json.str "t0"),
   ("transfer_id", Json.null)]

def storeW : Store := [("o1", recW)]

/-- Connector double that always fails. -/
def pollF : Nat → ReqResult :=
  fun _ => Except.error (ReqFailure.httpError 404 "no edr yet")

def EF : Nat → ReqFailure := fun _ => ReqFailure.httpError 404 "no edr yet"

/-- Python substring test (the `in` operator on strings). -/
def strContainsSub (hay need : String) : Bool :=
  (List.range (hay.length + 1)).any (fun i => need.data.isPrefixOf (hay.data.drop i))

/-- Python str() of a JSON value where it is interpolated into f-strings. -/
def jsonPyStr : Json → String
  | Json.null => "None"
  | Json.str s => s
  | Json.num n => toString n
  | Json.bool b => if b then "True" else "False"
  | Json.arr _ => "[...]"
  | Json.obj _ => "{...}"

/-- Validated EDC asset entry of CombinedTransferSchema.data (DataEntrySchema;
its `type` field is validated to equal "edc-asset" and carries no other
information). -/
structure DataEntry where
  counterPartyAddress : String
  contractId : String
  connectorId : String

/-- Validated ServiceSchema payload. -/
structure ServiceReq where
  counterPartyAddress : String
  contractId : String
  connectorId : String

/-- The result of CombinedTransferSchema.load on a valid body. -/
structure ParsedRequest where
  service : Option ServiceReq
  data : List DataEntry
  connectorAddress : String

def asStr : Json → Option String
  | Json.str s => some s
  | _ => none

/-- DataEntrySchema.load for one entry: required string fields, type must be
"edc-asset", unknown fields rejected (marshmallow default RAISE).  The exact
marshmallow error-message payloads are abstracted to short strings. -/
def loadDataEntry (j : Json) : Except Json DataEntry :=
  match j with
  | Json.obj kvs =>
      if kvs.any (fun p =>
          ¬ (p.1 = "type" ∨ p.1 = "counterPartyAddress" ∨ p.1 = "contractId" ∨
             p.1 = "connectorId")) then
        Except.error (Json.str "Unknown field.")
      else
        match alistGet kvs "type", alistGet kvs "counterPartyAddress",
            alistGet kvs "contractId", alistGet kvs "connectorId" with
        | some t, some c1, some c2, some c3 =>
            match asStr t, asStr c1, asStr c2, asStr c3 with
            | some ts, some s1, some s2, some s3 =>
                if ts = "edc-asset" then
                  Except.ok
                    { counterPartyAddress := s1, contractId := s2, connectorId := s3 }
                else Except.error (Json.str "Invalid value.")
            | _, _, _, _ => Except.error (Json.str "Not a valid string.")
        | _, _, _, _ => Except.error (Json.str "Missing data for required field.")
  | _ => Except.error (Json.str "Invalid input type.")

/-- ServiceSchema.load. -/
def loadService (j : Json) : Except Json ServiceReq :=
  match j with
  | Json.obj kvs =>
      if kvs.any (fun p =>
          ¬ (p.1 = "counterPartyAddress" ∨ p.1 = "contractId" ∨
             p.1 = "connectorId")) then
        Except.error (Json.str "Unknown field.")
      else
        match alistGet kvs "counterPartyAddress", alistGet kvs "contractId",
            alistGet kvs "connectorId" with
        | some c1, some c2, some c3 =>
            match asStr c1, asStr c2, asStr c3 with
            | some s1, some s2, some s3 =>
                Except.ok
                  { counterPartyAddress := s1, contractId := s2, connectorId := s3 }
            | _, _, _ => Except.error (Json.str "Not a valid string.")
        | _, _, _ => Except.error (Json.str "Missing data for required field.")
  | _ => Except.error (Json.str "Invalid input type.")

def loadEntries : List Json → Except Json (List DataEntry)
  | [] => Except.ok []
  | j :: rest =>
      match loadDataEntry j with
      | Except.error e => Except.error e
      | Except.ok d =>
          match loadEntries rest with
          | Except.error e => Except.error e
          | Except.ok ds => Except.ok (d :: ds)

/-- CombinedTransferSchema.load (transfer.py:49-57): data is a required
nonempty list of entries, connectorAddress a required string, service an
optional nested payload, unknown top-level fields rejected. -/
def schemaLoad (body : Json) : Except Json ParsedRequest :=
  match body with
  | Json.obj kvs =>
      if kvs.any (fun p =>
          ¬ (p.1 = "service" ∨ p.1 = "data" ∨ p.1 = "connectorAddress")) then
        Except.error (Json.str "Unknown field.")
      else
        match alistGet kvs "connectorAddress" with
        | none => Except.error (Json.str "Missing data for required field.")
        | some ca =>
            match asStr ca with
            | none => Except.error (Json.str "Not a valid string.")
            | some cas =>
                match alistGet kvs "data" with
                | none => Except.error (Json.str "Missing data for required field.")
                | some (Json.arr items) =>
                    if items.isEmpty then
                      Except.error (Json.str "Invalid value.")
                    else
                      match loadEntries items with
                      | Except.error e => Except.error e
                      | Except.ok entries =>
                          match alistGet kvs "service" with
                          | none =>
                              Except.ok
                                { service := none, data := entries,
                                  connectorAddress := cas }
                          | some sj =>
                              match loadService sj with
                              | Except.error e => Except.error e
                              | Except.ok s =>
                                  Except.ok
                                    { service := some s, data := entries,
                                      connectorAddress := cas }
                | some _ => Except.error (Json.str "Not a valid list.")
  | _ => Except.error (Json.str "Invalid input type.")

/-- The scheme-and-separator-stripping part of urlparse(...).hostname: the
text after "://" up to the first delimiter.  (Lowercasing and userinfo
handling of the real urlparse are not modelled; no claim depends on them.) -/
def afterSchemeMarker : List Char → List Char
  | ':' :: '/' :: '/' :: rest => rest
  | _ :: rest => afterSchemeMarker rest
  | [] => []

def parseHostname (url : String) : String :=
  String.mk
    ((afterSchemeMarker url.data).takeWhile
      (fun c => c ≠ '/' ∧ c ≠ ':' ∧ c ≠ '?' ∧ c ≠ '#'))

/-- The JSON rendering of the validated payload, stored as original_request. -/
def dataEntryJson (e : DataEntry) : Json :=
  Json.obj [("type", Json.str "edc-asset"),
    ("counterPartyAddress", Json.str e.counterPartyAddress),
    ("contractId", Json.str e.contractId),
    ("connectorId", Json.str e.connectorId)]

def serviceReqJson (s : ServiceReq) : Json :=
  Json.obj [("counterPartyAddress", Json.str s.counterPartyAddress),
    ("contractId", Json.str s.contractId),
    ("connectorId", Json.str s.connectorId)]

def parsedRequestJson (p : ParsedRequest) : Json :=
  match p.service with
  | some s =>
      Json.obj [("service", serviceReqJson s),
        ("data", Json.arr (p.data.map dataEntryJson)),
        ("connectorAddress", Json.str p.connectorAddress)]
  | none =>
      Json.obj [("data", Json.arr (p.data.map dataEntryJson)),
        ("connectorAddress", Json.str p.connectorAddress)]

/-- The INITIALIZING record inserted at transfer.py:139-148. -/
def initRecord (parsed : ParsedRequest) (now : Timestamp) : Record :=
  [("status", Json.str "INITIALIZING"), ("type", Json.str "combined"),
   ("original_request", parsedRequestJson parsed), ("created_at", Json.str now),
   ("updated_at", Json.str now), ("transfer_id", Json.null),
   ("data_entries", Json.arr [])]

/-- The fixed EDC request body built at transfer.py:258-269; the validated
entries never carry a transferType field, so the fallback transfer_type
argument is always used. -/
def edc_request_data (args : DataEntry) (transferType : String) : Json :=
  Json.obj [("@context",
      Json.arr [Json.str "https://w3id.org/edc/connector/management/v0.0.1"]),
    ("counterPartyAddress", Json.str args.counterPartyAddress),
    ("contractId", Json.str args.contractId),
    ("connectorId", Json.str args.connectorId),
    ("protocol", Json.str "dataspace-protocol-http"),
    ("transferType", Json.str transferType)]

/-- Python indexing d[k] on a JSON value: KeyError on an absent key, TypeError
on a non-dict. -/
def jsonIndex (j : Json) (k : String) : Except PyExc Json :=
  match j with
  | Json.obj kvs =>
      match alistGet kvs k with
      | some v => Except.ok v
      | none => Except.error (PyExc.keyError k)
  | _ => Except.error (PyExc.typeError ("subscript on non-dict: " ++ k))

/-- TransferProcessResource._handle_edc_request (transfer.py:253-310).  The
network outcome of posting requestData is the resp argument; only
requests.HTTPError is caught (FAILED is recorded with the connector's raw
body and the error envelope carries the connector's own status code); every
other exception propagates to the caller. -/
def handle_edc_request (_requestData : Json) (resp : ReqResult) (now : Timestamp)
    (orchestration_id successStatus : String) (store : Store) :
    Store × Except PyExc HttpResponse :=
  match resp with
  | Except.error (ReqFailure.httpError code text) =>
      (update_orchestration_status store now orchestration_id "FAILED"
        [("error", Json.str text)],
       Except.ok (create_error_response (Json.str "EDC API communication failed")
        (Json.str text) code))
  | Except.error f => (store, Except.error (PyExc.reqFailure f))
  | Except.ok okr =>
      match okr.jsonResult with
      | Except.error m => (store, Except.error (PyExc.otherExc m))
      | Except.ok responseData =>
          match responseData with
          | Json.obj _ =>
              let resourceId := jsonGet responseData "@id"
              if truthy resourceId then
                let rid := resourceId.getD Json.null
                (update_orchestration_status store now orchestration_id
                  successStatus
                  [("resource_id", rid), ("edc_response", responseData)],
                 Except.ok (create_success_response (Json.num 200)
                  (Json.obj [("resource_id", rid), ("data", responseData),
                    ("status", Json.str successStatus)]) none))
              else
                (store,
                 Except.error
                  (PyExc.valueError "Invalid EDC response: missing resource ID"))
          | _ => (store, Except.error (PyExc.typeError "get on non-dict response"))

/-- A 2xx response observed by _download_data: the Content-Type header value
(absent headers give None), the outcome of response.json(), and content.hex()
of the raw bytes. -/
structure DlOk where
  contentType : Option String
  jsonBody : Except String Json
  contentHex : String

/-- TransferProcessResource._download_data (transfer.py:352-410).  The GET's
outcome is the result argument; every exception inside the try (transport
failures, raise_for_status, the TypeError raised by testing membership in a
None content type, json() decode errors) is caught by the blanket except and
becomes the 500 "Data download failed" envelope. -/
def download_data (_url : String) (_headers : Dict)
    (result : Except ReqFailure DlOk) : HttpResponse :=
  match result with
  | Except.error exc =>
      create_error_response (Json.str "Data download failed")
        (Json.str exc.excStr) 500
  | Except.ok resp =>
      match resp.contentType with
      | none =>
          create_error_response (Json.str "Data download failed")
            (Json.str "argument of type NoneType is not iterable") 500
      | some ct =>
          if strContainsSub ct "application/json" then
            match resp.jsonBody with
            | Except.ok d =>
                create_success_response (Json.num 200)
                  (Json.obj [("content", d), ("content_type", Json.str ct)]) none
            | Except.error m =>
                create_error_response (Json.str "Data download failed")
                  (Json.str m) 500
          else
            create_success_response (Json.num 200)
              (Json.obj [("content", Json.str resp.contentHex),
                ("content_type", Json.str ct)]) none

/-- Outcome of _save_data_content (transfer.py:412-452): a saved file path, an
IOError (caught at the call site, transfer.py:222), or any other exception
(propagates to the generic handler). -/
inductive SaveResult where
  | saved (path : String)
  | ioError (msg : String)
  | raised (e : PyExc)

/-- The external world as observed by one orchestrate request: per-entry
outcomes of the transfer-initiation POST, of each data-address poll attempt,
of the data-plane download, and of saving the content. -/
structure EdcOracle where
  initiate : Nat → ReqResult
  poll : Nat → Nat → ReqResult
  download : Nat → Except ReqFailure DlOk
  save : Nat → SaveResult

/-- How the per-entry loop of post() (transfer.py:153-227) terminates:
an early `return response` with an error envelope, or completion of all
entries with the accumulated data_responses. -/
inductive EntriesOutcome where
  | earlyResponse (r : HttpResponse)
  | finished (acc : List Json)

/-- Configuration drawn from app/config.py through current_app.config. -/
structure OrchConfig where
  apiKey : String
  dataAddressDelay : Nat
  dataAddressMaxRetries : Nat

/-- The body of the per-entry for loop of post() (transfer.py:153-227),
threading the store and the accumulated data_responses; exceptions escape as
Except.error and reach post's generic handler. -/
def processEntries (cfg : OrchConfig) (connectorAddress connectorHostname : String)
    (ora : EdcOracle) (now : Timestamp) (orchestration_id : String) :
    List DataEntry → Nat → Store → List Json →
    Store × Except PyExc EntriesOutcome
  | [], _, store, acc => (store, Except.ok (EntriesOutcome.finished acc))
  | entry :: rest, idx, store, acc =>
      match handle_edc_request (edc_request_data entry "HttpData-PULL")
          (ora.initiate idx) now orchestration_id "ASSET_REGISTERED" store with
      | (s1, Except.error e) => (s1, Except.error e)
      | (s1, Except.ok resp) =>
          if resp.statusCode ≥ 400 then
            (s1, Except.ok (EntriesOutcome.earlyResponse resp))
          else
            match jsonIndex resp.body "response" with
            | Except.error e => (s1, Except.error e)
            | Except.ok inner =>
                match jsonIndex inner "resource_id" with
                | Except.error e => (s1, Except.error e)
                | Except.ok transferId =>
                    let rr := retrieve_data_address (ora.poll idx)
                      cfg.dataAddressDelay cfg.dataAddressMaxRetries now
                      orchestration_id s1
                    if rr.response.statusCode ≥ 400 then
                      (rr.store, Except.ok (EntriesOutcome.earlyResponse rr.response))
                    else
                      match jsonIndex rr.response.body "response" with
                      | Except.error e => (rr.store, Except.error e)
                      | Except.ok edrData =>
                          if ¬ truthy (jsonGet edrData "authorization") then
                            (rr.store,
                             Except.ok (EntriesOutcome.earlyResponse
                              (create_error_response (Json.str "Invalid EDR data")
                                (Json.str "Missing authorization token") 500)))
                          else
                            let authToken :=
                              (jsonGet edrData "authorization").getD Json.null
                            let authTypeV :=
                              (jsonGet edrData "authType").getD (Json.str "bearer")
                            let endpointV := (jsonGet edrData "endpoint").getD
                              (Json.str "http://provider-qna-dataplane:11002/api/public")
                            let dlHeaders : Dict :=
                              [("Authorization", authToken),
                               ("endpoint", endpointV), ("authType", authTypeV)]
                            let dlResp := download_data
                              ("http://" ++ connectorHostname ++
                                "/provider-qna/public/api/public")
                              dlHeaders (ora.download idx)
                            if dlResp.statusCode ≥ 400 then
                              (rr.store,
                               Except.ok (EntriesOutcome.earlyResponse dlResp))
                            else
                              match jsonIndex dlResp.body "response" with
                              | Except.error e => (rr.store, Except.error e)
                              | Except.ok dlInner =>
                                  match jsonIndex dlInner "content" with
                                  | Except.error e => (rr.store, Except.error e)
                                  | Except.ok _content =>
                                      match ora.save idx with
                                      | SaveResult.saved path =>
                                          processEntries cfg connectorAddress
                                            connectorHostname ora now
                                            orchestration_id rest (idx + 1)
                                            rr.store
                                            (acc ++ [Json.obj
                                              [("transfer_id", transferId),
                                               ("storage_path", Json.str path),
                                               ("status", Json.str "SAVED")]])
                                      | SaveResult.ioError _m =>
                                          (rr.store,
                                           Except.ok (EntriesOutcome.earlyResponse
                                            (create_error_response
                                              (Json.str
                                                ("Data storage failed for transfer "
                                                  ++ jsonPyStr transferId))
                                              Json.null 500)))
                                      | SaveResult.raised e =>
                                          (rr.store, Except.error e)

/-- post() after authorization and schema validation succeeded
(transfer.py:132-251): insert the INITIALIZING record, run the per-entry
loop, then either return the early error response, or mark COMPLETED and
return the success envelope, or - on an escaped exception - mark FAILED with
str(exc) and return the 500 envelope. -/
def postValidated (cfg : OrchConfig) (parsed : ParsedRequest)
    (orchestration_id : String) (now : Timestamp) (ora : EdcOracle)
    (store : Store) : Store × HttpResponse :=
  let store1 := alistSet store orchestration_id (initRecord parsed now)
  match processEntries cfg parsed.connectorAddress
      (parseHostname parsed.connectorAddress) ora now orchestration_id
      parsed.data 0 store1 [] with
  | (s2, Except.error exc) =>
      (update_orchestration_status s2 now orchestration_id "FAILED"
        [("error", Json.str exc.excStr)],
       create_error_response (Json.str exc.excStr) Json.null 500)
  | (s2, Except.ok (EntriesOutcome.earlyResponse r)) => (s2, r)
  | (s2, Except.ok (EntriesOutcome.finished acc)) =>
      (update_orchestration_status s2 now orchestration_id "COMPLETED"
        [("data_responses", Json.arr acc)],
       create_success_response (Json.num 200)
        (Json.obj [("status", Json.str "SUCCESS"), ("status_code", Json.num 200),
          ("data_responses", Json.arr acc)]) (some orchestration_id))

/-- Python truthiness of request.headers.get result. -/
def headerTruthy : Option String → Bool
  | none => false
  | some s => s ≠ ""

/-- TransferProcessResource.post (transfer.py:113-251): API-key checks first
(note both create_error_response calls pass 401/403 as the details argument,
leaving status_code at its default 400), then schema validation (400 envelope
on ValidationError, and no record is created), then the validated workflow. -/
def post (cfg : OrchConfig) (apiKeyHeader : Option String) (body : Json)
    (orchestration_id : String) (now : Timestamp) (ora : EdcOracle)
    (store : Store) : Store × HttpResponse :=
  if ¬ headerTruthy apiKeyHeader then
    (store, create_error_response (Json.str "Missing API key") (Json.num 401) 400)
  else if apiKeyHeader ≠ some cfg.apiKey then
    (store, create_error_response (Json.str "Invalid API key") (Json.num 403) 400)
  else
    match schemaLoad body with
    | Except.error msgs =>
        (store, create_error_response (Json.str "Invalid request format") msgs 400)
    | Except.ok parsed => postValidated cfg parsed orchestration_id now ora store

/-- status.py get_detailed_orchestration_data (status.py:22-41): raises
KeyError when a required field is absent (records created by post always have
them); properties defaults to an empty dict. -/
def get_detailed_orchestration_data (orchestration_id : String)
    (process : Record) : Except PyExc Json :=
  match alistGet process "status" with
  | none => Except.error (PyExc.keyError "status")
  | some st =>
      match alistGet process "created_at" with
      | none => Except.error (PyExc.keyError "created_at")
      | some ca =>
          match alistGet process "updated_at" with
          | none => Except.error (PyExc.keyError "updated_at")
          | some ua =>
              Except.ok
                (Json.obj [("orchestration_id", Json.str orchestration_id),
                  ("process_status", st), ("created_at", ca), ("updated_at", ua),
                  ("properties", (alistGet process "properties").getD (Json.obj []))])

/-- Python d[k] = v on a JSON object value. -/
def jsonObjSet (j : Json) (k : String) (v : Json) : Json :=
  match j with
  | Json.obj kvs => Json.obj (alistSet kvs k v)
  | _ => j

/-- OrchestrationDetailResource.get (status.py:85-132) after clientIp parsing.
edcStatus is the (cached) live EDC lookup outcome; the branch guarding it
tests response_data.get('type'), a key the detail dict never contains, so it
never fires.  The final create_success_response call passes the payload
positionally, i.e. as the status_code parameter. -/
def orchestration_detail_get (store : Store) (orchestration_id : String)
    (_clientIp : String) (edcStatus : Option Json) : HttpResponse :=
  if orchestration_id = "" then
    create_error_response (Json.str "Invalid orchestration ID") Json.null 400
  else
    match alistGet store orchestration_id with
    | none =>
        create_error_response (Json.str "Orchestration process not found")
          (Json.str ("Process with ID " ++ orchestration_id ++ " does not exist"))
          404
    | some process =>
        match get_detailed_orchestration_data orchestration_id process with
        | Except.error e =>
            create_error_response (Json.str "Error retrieving orchestration status")
              (Json.str e.excStr) 500
        | Except.ok responseData =>
            let transferId := alistGet process "transfer_id"
            let processType := jsonGet responseData "type"
            let isService : Bool :=
              match processType with
              | some (Json.str s) => s = "service"
              | _ => false
            let responseData2 :=
              if isService ∧ truthy transferId then
                match edcStatus with
                | some e =>
                    jsonObjSet
                      (jsonObjSet responseData "transfer_status"
                        ((jsonGet e "state").getD Json.null))
                      "edc_response" e
                | none => responseData
              else responseData
            create_success_response
              (Json.obj [("orchestration_processes",
                Json.obj [(orchestration_id, responseData2)])])
              Json.null none

/-- Modelled from the spec: the "data" workflow variant (direct endpoint
registration).  Only the combined workflow is present under src/; the spec
(sections 4.2 and 8) describes this variant as validating an endpoint URL and
auth-type, writing a REGISTERED record echoing them, and returning at once
with no external interaction and no retry.  The third component lists the
external calls performed. -/
structure DataVariantRequest where
  endpoint : String
  authType : String

/-- Modelled from the spec: validation of the "data" variant payload (an
endpoint URL and a nonempty auth-type). -/
def dataVariantValid (req : DataVariantRequest) : Bool :=
  strContainsSub req.endpoint "://" && req.authType ≠ ""

/-- Modelled from the spec: the "data" variant handler. -/
def data_variant_register (req : DataVariantRequest) (orchestration_id : String)
    (now : Timestamp) (store : Store) : Store × HttpResponse × List String :=
  if dataVariantValid req then
    (alistSet store orchestration_id
      [("status", Json.str "REGISTERED"), ("type", Json.str "data"),
       ("endpoint", Json.str req.endpoint), ("auth_type", Json.str req.authType),
       ("created_at", Json.str now), ("updated_at", Json.str now)],
     create_success_response (Json.num 200)
       (Json.obj [("status", Json.str "REGISTERED")]) (some orchestration_id),
     [])
  else
    (store, create_error_response (Json.str "Invalid request format") Json.null 400,
     [])

def cfgEx : OrchConfig :=
  { apiKey := "password", dataAddressDelay := 1, dataAddressMaxRetries := 3 }

def entryEx : Json :=
  Json.obj [("type", Json.str "edc-asset"),
    ("counterPartyAddress", Json.str "http://x"),
    ("contractId", Json.str "c1"), ("connectorId", Json.str "conn1")]

def bodyEx : Json :=
  Json.obj [("data", Json.arr [entryEx]), ("connectorAddress", Json.str "http://x")]

def initOkT1 : ReqResult :=
  Except.ok { jsonResult := Except.ok (Json.obj [("@id", Json.str "t1")]), text := "" }

/-- Connector double for the end-to-end success scenario. -/
def oraC5 : EdcOracle :=
  { initiate := fun _ => initOkT1
    poll := fun _ _ => Except.ok
      { jsonResult := Except.ok (Json.obj [("authorization", Json.str "tok"),
          ("endpoint", Json.str "http://data")])
        text := "" }
    download := fun _ => Except.ok
      { contentType := some "application/json"
        jsonBody := Except.ok (Json.obj [("v", Json.num 1)])
        contentHex := "" }
    save := fun _ => SaveResult.saved "data/file_t1.json" }

/-- Same double but the retrieved EDR carries no authorization credential. -/
def oraNoAuth : EdcOracle :=
  { oraC5 with
    poll := fun _ _ => Except.ok
      { jsonResult := Except.ok (Json.obj [("endpoint", Json.str "http://data")])
        text := "" } }

/-- Same double but the data-plane download fails. -/
def oraDlFail : EdcOracle :=
  { oraC5 with
    download := fun _ => Except.error (ReqFailure.timeout "download timed out") }

/-- A successful download response that lacks the Content-Type header. -/
def dlNoCT : DlOk :=
  { contentType := none, jsonBody := Except.ok Json.null, contentHex := "ff" }

/-- A validated single-entry combined request (the parse of bodyEx). -/
def entryDE : DataEntry :=
  { counterPartyAddress := "http://x", contractId := "c1", connectorId := "conn1" }

def parsedEx : ParsedRequest :=
  { service := none, data := [entryDE], connectorAddress := "http://x" }

/-- Connector double whose transfer-initiation POST fails with HTTP 500. -/
def oraInitFail : EdcOracle :=
  { oraC5 with
    initiate := fun _ => Except.error (ReqFailure.httpError 500 "server blew up") }

/-- Connector double whose transfer-initiation response has no @id. -/
def oraNoId : EdcOracle :=
  { oraC5 with
    initiate := fun _ => Except.ok
      { jsonResult := Except.ok (Json.obj [("foo", Json.str "bar")]), text := "" } }

theorem alistGet_cons {α : Type} (a : String × α) (d : List (String × α)) (k : String) :
    alistGet (a :: d) k = if a.1 = k then some a.2 else alistGet d k := by
  by_cases h : a.1 = k
  · simp [alistGet, List.find?, h]
  · simp only [alistGet, List.find?]
    rw [if_neg h]
    simp [decide_eq_false h]

theorem alistGet_alistSet {α : Type} (d : List (String × α)) (k k' : String) (v : α) :
    alistGet (alistSet d k v) k' = if k = k' then some v else alistGet d k' := by
  induction d with
  | nil =>
    by_cases h : k = k' <;> simp [alistSet, alistGet_cons, alistGet, h]
  | cons p rest ih =>
    by_cases hp : p.1 = k
    · rw [alistSet, if_pos hp]
      by_cases h : k = k'
      · simp [alistGet_cons, h]
      · rw [alistGet_cons, alistGet_cons]
        simp only [h, if_false, if_neg h]
        rw [hp, if_neg h]
    · rw [alistSet, if_neg hp]
      by_cases h : k = k'
      · subst h
        rw [alistGet_cons, if_neg hp, ih]
        simp [alistGet_cons, if_neg hp]
      · rw [alistGet_cons, ih, if_neg h, alistGet_cons, if_neg h]

theorem dictUpdate_nil (d : Dict) : dictUpdate d [] = d := rfl

theorem dictUpdate_cons (d : Dict) (p : String × Json) (rest : Dict) :
    dictUpdate d (p :: rest) = dictUpdate (alistSet d p.1 p.2) rest := rfl

/-- A key touched by none of the updates keeps its value. -/
theorem alistGet_dictUpdate_of_notMem (d : Dict) (upds : Dict) (k : String)
    (h : ∀ p ∈ upds, p.1 ≠ k) :
    alistGet (dictUpdate d upds) k = alistGet d k := by
  induction upds generalizing d with
  | nil => rfl
  | cons p rest ih =>
    rw [dictUpdate_cons]
    rw [ih _ (fun q hq => h q (List.mem_cons_of_mem _ hq))]
    rw [alistGet_alistSet]
    rw [if_neg (h p (List.mem_cons_self _ _))]

/-- The head update wins when no later update touches its key. -/
theorem alistGet_dictUpdate_head (d : Dict) (k : String) (v : Json) (rest : Dict)
    (h : ∀ p ∈ rest, p.1 ≠ k) :
    alistGet (dictUpdate d ((k, v) :: rest)) k = some v := by
  rw [dictUpdate_cons]
  rw [alistGet_dictUpdate_of_notMem _ _ _ h]
  rw [alistGet_alistSet]
  simp

/-- With pairwise-distinct update keys, every update is visible afterwards. -/
theorem alistGet_dictUpdate_mem (d : Dict) (upds : Dict) (k : String) (v : Json)
    (hmem : (k, v) ∈ upds) (hnd : (upds.map Prod.fst).Nodup) :
    alistGet (dictUpdate d upds) k = some v := by
  induction upds generalizing d with
  | nil => cases hmem
  | cons p rest ih =>
    simp only [List.map_cons, List.nodup_cons] at hnd
    rcases List.mem_cons.mp hmem with heq | htail
    · subst heq
      refine alistGet_dictUpdate_head d k v rest ?_
      intro q hq hk
      exact hnd.1 (List.mem_map.mpr ⟨q, hq, hk⟩)
    · rw [dictUpdate_cons]
      exact ih (alistSet d p.1 p.2) htail hnd.2

theorem countAttempts_traceFor (delay : Nat) :
    ∀ (n a : Nat), countAttempts (traceFor delay a n) = n := by
  intro n
  induction n with
  | zero => intro a; rfl
  | succ n ih =>
    intro a
    simp only [traceFor, countAttempts, List.countP_append] at *
    rw [ih (a + 1)]
    by_cases h : a > 0 <;>
      simp [attemptEvs, h, List.countP_append, isAttemptEv] <;> omega

theorem countSleeps_traceFor_pos (delay : Nat) :
    ∀ (n a : Nat), a > 0 → countSleeps (traceFor delay a n) = n := by
  intro n
  induction n with
  | zero => intro a _; rfl
  | succ n ih =>
    intro a ha
    simp only [traceFor, countSleeps, List.countP_append] at *
    rw [ih (a + 1) (by omega)]
    simp [attemptEvs, ha, List.countP_append, isSleepEv]
    omega

theorem countSleeps_traceFor_zero (delay : Nat) (n : Nat) :
    countSleeps (traceFor delay 0 (n + 1)) = n := by
  simp only [traceFor, countSleeps, List.countP_append]
  have h := countSleeps_traceFor_pos delay n 1 (by omega)
  simp only [countSleeps] at h
  rw [h]
  simp [attemptEvs, isSleepEv]

theorem sleep_mem_traceFor (delay : Nat) :
    ∀ (n a d : Nat), Ev.sleep d ∈ traceFor delay a n → d = delay := by
  intro n
  induction n with
  | zero => intro a d h; cases h
  | succ n ih =>
    intro a d h
    simp only [traceFor, List.mem_append] at h
    rcases h with h | h
    · simp only [attemptEvs, List.mem_append] at h
      rcases h with h | h
      · by_cases ha : a > 0
        · simp [ha] at h
          omega
        · simp [ha] at h
      · simp at h
    · exact ih (a + 1) d h

theorem head_traceFor_zero (delay : Nat) (n : Nat) :
    (traceFor delay 0 (n + 1)).head? = some (Ev.attemptReq 0) := by
  simp [traceFor, attemptEvs]

/-- If the first m attempts starting at index a fail and attempt a+m yields a
2xx response with a parseable body, the loop stops there: one store write
(DATA_ADDRESS_RETRIEVED), a 200 success envelope carrying the payload, and
the canonical sleep/request trace of m+1 iterations. -/
theorem retrieveAux_success (poll : Nat → ReqResult) (delay : Nat) (now : Timestamp)
    (oid : String) (store : Store) :
    ∀ (m a r : Nat) (L : Option ReqFailure) (E : Nat → ReqFailure)
      (okr : EdcOkResponse) (j : Json),
      m < r →
      (∀ i, i < m → poll (a + i) = Except.error (E i)) →
      poll (a + m) = Except.ok okr →
      okr.jsonResult = Except.ok j →
      retrieveAux poll delay now oid store a r L =
        { store := update_orchestration_status store now oid "DATA_ADDRESS_RETRIEVED"
            [("data_address", j)]
          response := create_success_response (Json.num 200) j none
          trace := traceFor delay a (m + 1) } := by
  intro m
  induction m with
  | zero =>
    intro a r L E okr j hmr hfail hok hjson
    obtain ⟨r', rfl⟩ : ∃ r', r = r' + 1 := ⟨r - 1, by omega⟩
    rw [retrieveAux]
    simp only [Nat.add_zero] at hok
    rw [hok]
    simp [hjson, traceFor, attemptEvs]
  | succ m ih =>
    intro a r L E okr j hmr hfail hok hjson
    obtain ⟨r', rfl⟩ : ∃ r', r = r' + 1 := ⟨r - 1, by omega⟩
    rw [retrieveAux]
    have h0 : poll a = Except.error (E 0) := by
      have := hfail 0 (by omega)
      simpa using this
    rw [h0]
    have ihres := ih (a + 1) r' (some (E 0)) (fun i => E (i + 1)) okr j (by omega)
      (fun i hi => by
        have := hfail (i + 1) (by omega)
        simpa [Nat.add_assoc, Nat.add_comm 1 i] using this)
      (by
        have : a + 1 + m = a + (m + 1) := by omega
        rw [this]
        exact hok)
      hjson
    simp only [ihres]
    simp [traceFor, attemptEvs]

/-- If every one of the r ≥ 1 attempts starting at index a fails, the loop
exhausts all of them, writes FAILED with str of the last failure only, and
returns the 500 error envelope. -/
theorem retrieveAux_allFail (poll : Nat → ReqResult) (delay : Nat) (now : Timestamp)
    (oid : String) (store : Store) :
    ∀ (r a : Nat) (L : Option ReqFailure) (E : Nat → ReqFailure),
      1 ≤ r →
      (∀ i, i < r → poll (a + i) = Except.error (E i)) →
      retrieveAux poll delay now oid store a r L =
        { store := update_orchestration_status store now oid "FAILED"
            [("error", Json.str ((E (r - 1)).excStr))]
          response := create_error_response (Json.str "Data address retrieval failed")
            (Json.str ((E (r - 1)).excStr)) 500
          trace := traceFor delay a r } := by
  intro r
  induction r with
  | zero => intro a L E h; omega
  | succ r ih =>
    intro a L E _ hfail
    have h0 : poll a = Except.error (E 0) := by
      have := hfail 0 (by omega)
      simpa using this
    rw [retrieveAux, h0]
    match r with
    | 0 =>
      simp [retrieveAux, lastExcStr, traceFor, attemptEvs]
    | r' + 1 =>
      have ihres := ih (a + 1) (some (E 0)) (fun i => E (i + 1)) (by omega)
        (fun i hi => by
          have := hfail (i + 1) (by omega)
          simpa [Nat.add_assoc, Nat.add_comm 1 i] using this)
      simp only [ihres]
      simp only [Nat.add_sub_cancel]
      simp [traceFor, attemptEvs]

theorem isEmpty_false_of_ne_nil {α : Type} {l : List α} (h : l ≠ []) :
    l.isEmpty = false := by
  cases l
  · exact absurd rfl h
  · rfl

theorem update_orchestration_status_present (store : Store) (now : Timestamp)
    (oid st : String) (kwargs : Dict) (rec : Record)
    (hrec : alistGet store oid = some rec) (hne : rec ≠ []) :
    update_orchestration_status store now oid st kwargs =
      alistSet store oid
        (dictUpdate rec
          (("status", Json.str st) :: ("updated_at", Json.str now) :: kwargs)) := by
  unfold update_orchestration_status
  rw [hrec]
  simp [isEmpty_false_of_ne_nil hne]

theorem update_orchestration_status_absent (store : Store) (now : Timestamp)
    (oid st : String) (kwargs : Dict) (hrec : alistGet store oid = none) :
    update_orchestration_status store now oid st kwargs = store := by
  unfold update_orchestration_status
  rw [hrec]

/-- A present but empty record is falsy in Python, so `if process:` skips the
update. -/
theorem update_orchestration_status_empty (store : Store) (now : Timestamp)
    (oid st : String) (kwargs : Dict) (hrec : alistGet store oid = some []) :
    update_orchestration_status store now oid st kwargs = store := by
  unfold update_orchestration_status
  rw [hrec]
  rfl

theorem storeRecordField_update (store : Store) (now : Timestamp) (oid st : String)
    (kwargs : Dict) (rec : Record) (hrec : alistGet store oid = some rec)
    (hne : rec ≠ []) (k : String) :
    storeRecordField (update_orchestration_status store now oid st kwargs) oid k =
      alistGet
        (dictUpdate rec
          (("status", Json.str st) :: ("updated_at", Json.str now) :: kwargs)) k := by
  rw [update_orchestration_status_present store now oid st kwargs rec hrec hne]
  unfold storeRecordField
  rw [alistGet_alistSet]
  simp

/-- C1.  EDR retrieval loop, eventual success: if the first K-1 polls fail and
poll K succeeds (1 ≤ K ≤ max retries), exactly K attempts happen, a fixed-delay
sleep precedes every attempt but the first, the record becomes
DATA_ADDRESS_RETRIEVED, and the returned response is the 200 success envelope
carrying the retrieved data-address payload.  The record is required to be
non-empty because the store write sits behind the `if process:` truthiness
guard; every record the workflow creates (initRecord and its merges) is
non-empty. -/
theorem edr_retry_succeeds_on_attempt_K (poll : Nat → ReqResult)
    (delay maxRetries K : Nat) (now : Timestamp) (oid : String) (store : Store)
    (rec : Record) (E : Nat → ReqFailure) (okr : EdcOkResponse) (j : Json)
    (hK1 : 1 ≤ K) (hK2 : K ≤ maxRetries)
    (hfail : ∀ i, i < K - 1 → poll i = Except.error (E i))
    (hok : poll (K - 1) = Except.ok okr)
    (hjson : okr.jsonResult = Except.ok j)
    (hrec : alistGet store oid = some rec) (hne : rec ≠ []) :
    (retrieve_data_address poll delay maxRetries now oid store).trace =
        traceFor delay 0 K ∧
    countAttempts (retrieve_data_address poll delay maxRetries now oid store).trace
        = K ∧
    countSleeps (retrieve_data_address poll delay maxRetries now oid store).trace
        = K - 1 ∧
    (∀ d, Ev.sleep d ∈
        (retrieve_data_address poll delay maxRetries now oid store).trace →
        d = delay) ∧
    (retrieve_data_address poll delay maxRetries now oid store).trace.head? =
        some (Ev.attemptReq 0) ∧
    storeRecordField (retrieve_data_address poll delay maxRetries now oid store).store
        oid "status" = some (Json.str "DATA_ADDRESS_RETRIEVED") ∧
    (retrieve_data_address poll delay maxRetries now oid store).response =
        create_success_response (Json.num 200) j none ∧
    (retrieve_data_address poll delay maxRetries now oid store).response.statusCode
        = 200 ∧
    jsonGet (retrieve_data_address poll delay maxRetries now oid store).response.body
        "response" = some j := by
  have hres := retrieveAux_success poll delay now oid store (K - 1) 0 maxRetries none
    E okr j (by omega)
    (fun i hi => by simpa using hfail i hi)
    (by simpa using hok) hjson
  have hK : K - 1 + 1 = K := by omega
  rw [hK] at hres
  rw [retrieve_data_address, hres]
  obtain ⟨K', rfl⟩ : ∃ K', K = K' + 1 := ⟨K - 1, by omega⟩
  refine ⟨rfl, countAttempts_traceFor delay _ 0, ?_, sleep_mem_traceFor delay _ 0,
    head_traceFor_zero delay K', ?_, rfl, rfl, rfl⟩
  · simpa using countSleeps_traceFor_zero delay K'
  · rw [storeRecordField_update store now oid _ _ rec hrec hne]
    refine alistGet_dictUpdate_head rec _ _ _ ?_
    intro p hp
    simp only [List.mem_cons, List.mem_singleton] at hp
    rcases hp with h | h | h
    · rw [h]; simp
    · rw [h]; simp
    · cases h

/-- C2.  EDR retrieval loop, exhaustion: if every one of the maxRetries ≥ 1
polls fails, exactly maxRetries attempts happen, the record becomes FAILED
with error equal to str of the last failure only (all other record fields are
untouched, so earlier failures are nowhere preserved), and the returned
response is the 500 error envelope.  The record is required to be non-empty
because the store write sits behind the `if process:` truthiness guard; every
record the workflow creates is non-empty. -/
theorem edr_retry_exhaustion_records_last_error (poll : Nat → ReqResult)
    (delay maxRetries : Nat) (now : Timestamp) (oid : String) (store : Store)
    (rec : Record) (E : Nat → ReqFailure)
    (hR : 1 ≤ maxRetries)
    (hfail : ∀ i, i < maxRetries → poll i = Except.error (E i))
    (hrec : alistGet store oid = some rec) (hne : rec ≠ []) :
    (retrieve_data_address poll delay maxRetries now oid store).trace =
        traceFor delay 0 maxRetries ∧
    countAttempts (retrieve_data_address poll delay maxRetries now oid store).trace
        = maxRetries ∧
    storeRecordField (retrieve_data_address poll delay maxRetries now oid store).store
        oid "status" = some (Json.str "FAILED") ∧
    storeRecordField (retrieve_data_address poll delay maxRetries now oid store).store
        oid "error" = some (Json.str ((E (maxRetries - 1)).excStr)) ∧
    (∀ k, k ≠ "status" → k ≠ "updated_at" → k ≠ "error" →
        storeRecordField
          (retrieve_data_address poll delay maxRetries now oid store).store oid k =
          alistGet rec k) ∧
    (retrieve_data_address poll delay maxRetries now oid store).response =
        create_error_response (Json.str "Data address retrieval failed")
          (Json.str ((E (maxRetries - 1)).excStr)) 500 ∧
    (retrieve_data_address poll delay maxRetries now oid store).response.statusCode
        = 500 := by
  have hres := retrieveAux_allFail poll delay now oid store maxRetries 0 none E hR
    (fun i hi => by simpa using hfail i hi)
  rw [retrieve_data_address, hres]
  refine ⟨rfl, countAttempts_traceFor delay _ 0, ?_, ?_, ?_, rfl, rfl⟩
  · rw [storeRecordField_update store now oid _ _ rec hrec hne]
    refine alistGet_dictUpdate_head rec _ _ _ ?_
    intro p hp
    simp only [List.mem_cons, List.mem_singleton] at hp
    rcases hp with h | h | h
    · rw [h]; simp
    · rw [h]; simp
    · cases h
  · rw [storeRecordField_update store now oid _ _ rec hrec hne]
    refine alistGet_dictUpdate_mem _ _ _ _ ?_ ?_
    · simp
    · simp
  · intro k h1 h2 h3
    rw [storeRecordField_update store now oid _ _ rec hrec hne]
    refine alistGet_dictUpdate_of_notMem _ _ _ ?_
    intro p hp
    simp only [List.mem_cons, List.not_mem_nil, or_false] at hp
    rcases hp with h | h | h
    · rw [h]; exact fun hc => h1 hc.symm
    · rw [h]; exact fun hc => h2 hc.symm
    · rw [h]; exact fun hc => h3 hc.symm

/-- Witness for C1 at K = 2, maxRetries = 3. -/
theorem edr_retry_succeeds_on_attempt_K_witness :
    countAttempts (retrieve_data_address pollW 1 3 "t1" "o1" storeW).trace = 2 ∧
    countSleeps (retrieve_data_address pollW 1 3 "t1" "o1" storeW).trace = 1 ∧
    storeRecordField (retrieve_data_address pollW 1 3 "t1" "o1" storeW).store
      "o1" "status" = some (Json.str "DATA_ADDRESS_RETRIEVED") := by
  have h := edr_retry_succeeds_on_attempt_K pollW 1 3 2 "t1" "o1" storeW recW EW okW
    (Json.obj [("authorization", Json.str "tok")])
    (by omega) (by omega)
    (fun i hi => by
      have h0 : i = 0 := by omega
      subst h0
      rfl)
    rfl rfl rfl (by simp [recW])
  exact ⟨h.2.1, h.2.2.1, h.2.2.2.2.2.1⟩

/-- Witness for C2 at maxRetries = 3. -/
theorem edr_retry_exhaustion_records_last_error_witness :
    countAttempts (retrieve_data_address pollF 1 3 "t1" "o1" storeW).trace = 3 ∧
    storeRecordField (retrieve_data_address pollF 1 3 "t1" "o1" storeW).store
      "o1" "status" = some (Json.str "FAILED") ∧
    storeRecordField (retrieve_data_address pollF 1 3 "t1" "o1" storeW).store
      "o1" "error" = some (Json.str ((ReqFailure.httpError 404 "no edr yet").excStr)) ∧
    (retrieve_data_address pollF 1 3 "t1" "o1" storeW).response.statusCode = 500 := by
  have h := edr_retry_exhaustion_records_last_error pollF 1 3 "t1" "o1" storeW recW EF
    (by omega) (fun i hi => rfl) rfl (by simp [recW])
  exact ⟨h.2.1, h.2.2.1, h.2.2.2.1, h.2.2.2.2.2.2⟩

/-- C9.  _update_orchestration_status: when the identifier is present, exactly
status, updated_at and the keyword fields are rewritten while every other
field of the record and every other record are unchanged; when the identifier
is absent - or is bound to an empty record, which the `if process:` truthiness
guard treats like absence - the store is unchanged. -/
theorem update_orchestration_status_exact (store : Store) (now : Timestamp)
    (oid st : String) (kwargs : Dict) :
    (alistGet store oid = none →
      update_orchestration_status store now oid st kwargs = store) ∧
    (alistGet store oid = some [] →
      update_orchestration_status store now oid st kwargs = store) ∧
    (∀ rec, alistGet store oid = some rec → rec ≠ [] →
      (kwargs.map Prod.fst).Nodup →
      "status" ∉ kwargs.map Prod.fst →
      "updated_at" ∉ kwargs.map Prod.fst →
      storeRecordField (update_orchestration_status store now oid st kwargs) oid
          "status" = some (Json.str st) ∧
      storeRecordField (update_orchestration_status store now oid st kwargs) oid
          "updated_at" = some (Json.str now) ∧
      (∀ p ∈ kwargs,
        storeRecordField (update_orchestration_status store now oid st kwargs) oid
          p.1 = some p.2) ∧
      (∀ k, k ≠ "status" → k ≠ "updated_at" → k ∉ kwargs.map Prod.fst →
        storeRecordField (update_orchestration_status store now oid st kwargs) oid
          k = alistGet rec k) ∧
      (∀ oid2, oid2 ≠ oid →
        alistGet (update_orchestration_status store now oid st kwargs) oid2 =
          alistGet store oid2)) := by
  refine ⟨update_orchestration_status_absent store now oid st kwargs,
    update_orchestration_status_empty store now oid st kwargs, ?_⟩
  intro rec hrec hne hnd hs hu
  have hkw_status : ∀ p ∈ kwargs, p.1 ≠ "status" := by
    intro p hp hc
    exact hs (hc ▸ List.mem_map.mpr ⟨p, hp, rfl⟩)
  have hkw_upd : ∀ p ∈ kwargs, p.1 ≠ "updated_at" := by
    intro p hp hc
    exact hu (hc ▸ List.mem_map.mpr ⟨p, hp, rfl⟩)
  refine ⟨?_, ?_, ?_, ?_, ?_⟩
  · rw [storeRecordField_update store now oid st kwargs rec hrec hne]
    refine alistGet_dictUpdate_head rec _ _ _ ?_
    intro p hp
    rcases List.mem_cons.mp hp with h | h
    · rw [h]; simp
    · exact hkw_status p h
  · rw [storeRecordField_update store now oid st kwargs rec hrec hne]
    rw [dictUpdate_cons]
    exact alistGet_dictUpdate_head _ _ _ _ hkw_upd
  · intro p hp
    rw [storeRecordField_update store now oid st kwargs rec hrec hne]
    have hmem : (p.1, p.2) ∈
        ("status", Json.str st) :: ("updated_at", Json.str now) :: kwargs := by
      right; right; simpa using hp
    refine alistGet_dictUpdate_mem _ _ _ _ hmem ?_
    simp only [List.map_cons, List.nodup_cons]
    refine ⟨?_, ?_, hnd⟩
    · intro hc
      rcases List.mem_cons.mp hc with h | h
      · exact absurd h.symm (by simp)
      · exact hs h
    · exact hu
  · intro k h1 h2 h3
    rw [storeRecordField_update store now oid st kwargs rec hrec hne]
    refine alistGet_dictUpdate_of_notMem _ _ _ ?_
    intro p hp
    rcases List.mem_cons.mp hp with h | h
    · rw [h]; exact fun hc => h1 hc.symm
    rcases List.mem_cons.mp h with h | h
    · rw [h]; exact fun hc => h2 hc.symm
    · intro hc
      exact h3 (hc ▸ List.mem_map.mpr ⟨p, h, rfl⟩)
  · intro oid2 hne2
    rw [update_orchestration_status_present store now oid st kwargs rec hrec hne]
    rw [alistGet_alistSet]
    rw [if_neg (fun hc => hne2 hc.symm)]

/-- C9 counterexample.  With the identifier present in the store but bound to
an empty record - which Python's `if process:` treats as falsy
(transfer.py:106) - the call leaves the entire store unchanged: contrary to
the claim, the given status is not rewritten. -/
theorem update_present_empty_record_noop_counterexample :
    alistGet ([("o1", ([] : Record))] : Store) "o1" = some [] ∧
    update_orchestration_status [("o1", ([] : Record))] "t1" "o1" "FAILED"
      [("error", Json.str "boom")] = [("o1", ([] : Record))] ∧
    storeRecordField
      (update_orchestration_status [("o1", ([] : Record))] "t1" "o1" "FAILED"
        [("error", Json.str "boom")]) "o1" "status" = none :=
  ⟨rfl, rfl, rfl⟩

/-- Witness for C9: an absent-identifier no-op, an empty-record no-op and a
present non-empty record update. -/
theorem update_orchestration_status_exact_witness :
    update_orchestration_status storeW "t2" "zz" "COMPLETED" [] = storeW ∧
    update_orchestration_status [("o2", ([] : Record))] "t2" "o2" "COMPLETED" [] =
      [("o2", ([] : Record))] ∧
    storeRecordField
      (update_orchestration_status storeW "t2" "o1" "COMPLETED"
        [("data_responses", Json.arr [])]) "o1" "status" =
      some (Json.str "COMPLETED") ∧
    storeRecordField
      (update_orchestration_status storeW "t2" "o1" "COMPLETED"
        [("data_responses", Json.arr [])]) "o1" "created_at" =
      some (Json.str "t0") := by
  refine ⟨(update_orchestration_status_exact storeW "t2" "zz" "COMPLETED" []).1 rfl,
    (update_orchestration_status_exact [("o2", ([] : Record))] "t2" "o2"
      "COMPLETED" []).2.1 rfl,
    ?_, ?_⟩
  · exact ((update_orchestration_status_exact storeW "t2" "o1" "COMPLETED"
      [("data_responses", Json.arr [])]).2.2 recW rfl (by simp [recW]) (by simp)
      (by simp) (by simp)).1
  · have h := ((update_orchestration_status_exact storeW "t2" "o1" "COMPLETED"
      [("data_responses", Json.arr [])]).2.2 recW rfl (by simp [recW]) (by simp)
      (by simp) (by simp)).2.2.2.1 "created_at" (by simp) (by simp) (by simp)
    rw [h]
    rfl

theorem storeRecordField_update_status (store : Store) (now : Timestamp)
    (oid st : String) (kwargs : Dict) (rec : Record)
    (hrec : alistGet store oid = some rec) (hne : rec ≠ [])
    (hkw : ∀ p ∈ kwargs, p.1 ≠ "status") :
    storeRecordField (update_orchestration_status store now oid st kwargs) oid
      "status" = some (Json.str st) := by
  rw [storeRecordField_update store now oid st kwargs rec hrec hne]
  refine alistGet_dictUpdate_head rec _ _ _ ?_
  intro p hp
  rcases List.mem_cons.mp hp with h | h
  · rw [h]; simp
  · exact hkw p h

theorem storeRecordField_update_error (store : Store) (now : Timestamp)
    (oid st : String) (v : Json) (rec : Record)
    (hrec : alistGet store oid = some rec) (hne : rec ≠ []) :
    storeRecordField
      (update_orchestration_status store now oid st [("error", v)]) oid
      "error" = some v := by
  rw [storeRecordField_update store now oid st [("error", v)] rec hrec hne]
  refine alistGet_dictUpdate_mem _ _ _ _ ?_ ?_
  · simp
  · simp

theorem alistGet_alistSet_self {α : Type} (d : List (String × α)) (k : String)
    (v : α) : alistGet (alistSet d k v) k = some v := by
  rw [alistGet_alistSet]
  simp

/-- C3.  Authorization failures on POST /orchestrator/orchestrate: with the
X-Api-Key header missing the code returns HTTP 400 with the number 401 in the
details field, with a mismatched header it returns HTTP 400 with 403 in
details (both create_error_response calls pass the intended code as the
details argument, leaving status_code at its default 400), and in both cases
the store is unchanged, so no OrchestrationProcess record is created. -/
theorem auth_failure_responds_400_and_creates_no_record :
    ∀ (body : Json) (oid : String) (now : Timestamp) (ora : EdcOracle)
      (store : Store),
    post cfgEx none body oid now ora store =
      (store,
       create_error_response (Json.str "Missing API key") (Json.num 401) 400) ∧
    (post cfgEx none body oid now ora store).2.statusCode = 400 ∧
    post cfgEx (some "wrong") body oid now ora store =
      (store,
       create_error_response (Json.str "Invalid API key") (Json.num 403) 400) ∧
    (post cfgEx (some "wrong") body oid now ora store).2.statusCode = 400 :=
  fun _ _ _ _ _ => ⟨rfl, rfl, rfl, rfl⟩

/-- C5.  End-to-end success scenario (connector answers with @id t1, then an
EDR with an authorization token, then a JSON payload that saves): the final
record is COMPLETED and data_responses has exactly one entry, but the
connector-assigned identifier is stored under resource_id while the record's
transfer_id field keeps its initial None. -/
theorem success_scenario_record_fields_eval :
    storeRecordField (post cfgEx (some "password") bodyEx "o5" "t0" oraC5 []).1
      "o5" "status" = some (Json.str "COMPLETED") ∧
    storeRecordField (post cfgEx (some "password") bodyEx "o5" "t0" oraC5 []).1
      "o5" "transfer_id" = some Json.null ∧
    storeRecordField (post cfgEx (some "password") bodyEx "o5" "t0" oraC5 []).1
      "o5" "resource_id" = some (Json.str "t1") ∧
    storeRecordField (post cfgEx (some "password") bodyEx "o5" "t0" oraC5 []).1
      "o5" "data_responses" =
      some (Json.arr [Json.obj [("transfer_id", Json.str "t1"),
        ("storage_path", Json.str "data/file_t1.json"),
        ("status", Json.str "SAVED")]]) ∧
    (post cfgEx (some "password") bodyEx "o5" "t0" oraC5 []).2.statusCode = 200 :=
  ⟨rfl, rfl, rfl, rfl, rfl⟩

/-- C4 counterexample.  An EDR payload without an authorization credential
makes post return the 500 "Invalid EDR data" envelope while the owning record
is left at DATA_ADDRESS_RETRIEVED with no error field: the failure is not
recorded into the record before the envelope is returned. -/
theorem missing_authorization_not_recorded_counterexample :
    (post cfgEx (some "password") bodyEx "o1" "t0" oraNoAuth []).2 =
      create_error_response (Json.str "Invalid EDR data")
        (Json.str "Missing authorization token") 500 ∧
    storeRecordField (post cfgEx (some "password") bodyEx "o1" "t0" oraNoAuth []).1
      "o1" "status" = some (Json.str "DATA_ADDRESS_RETRIEVED") ∧
    storeRecordField (post cfgEx (some "password") bodyEx "o1" "t0" oraNoAuth []).1
      "o1" "error" = none :=
  ⟨rfl, rfl, rfl⟩

/-- C10.  A download whose HTTP request succeeds but whose response has no
Content-Type header never yields the content: the membership test on the None
header raises, the blanket except catches it, and the 500 "Data download
failed" envelope (whose body has no response field) is returned. -/
theorem download_missing_content_type_returns_error (url : String)
    (headers : Dict) (resp : DlOk) (h : resp.contentType = none) :
    download_data url headers (Except.ok resp) =
      create_error_response (Json.str "Data download failed")
        (Json.str "argument of type NoneType is not iterable") 500 ∧
    (download_data url headers (Except.ok resp)).statusCode = 500 ∧
    jsonGet (download_data url headers (Except.ok resp)).body "message" =
      some (Json.str "Data download failed") ∧
    jsonGet (download_data url headers (Except.ok resp)).body "response" = none := by
  obtain ⟨ct, jb, ch⟩ := resp
  dsimp only at h
  subst h
  exact ⟨rfl, rfl, rfl, rfl⟩

/-- Witness for C10. -/
theorem download_missing_content_type_returns_error_witness :
    (download_data "http://h/provider-qna/public/api/public" []
      (Except.ok dlNoCT)).statusCode = 500 ∧
    jsonGet (download_data "http://h/provider-qna/public/api/public" []
      (Except.ok dlNoCT)).body "response" = none := by
  have h := download_missing_content_type_returns_error
    "http://h/provider-qna/public/api/public" [] dlNoCT rfl
  exact ⟨h.2.1, h.2.2.2⟩

/-- C8 (modelled from the spec; the data variant is absent from src/).  Every
valid "data" request registers a record whose status is REGISTERED and whose
endpoint/auth_type echo the input verbatim, returning at once with no
external call. -/
theorem data_variant_registers_verbatim (req : DataVariantRequest)
    (oid : String) (now : Timestamp) (store : Store)
    (hvalid : dataVariantValid req = true) :
    storeRecordField (data_variant_register req oid now store).1 oid "status" =
      some (Json.str "REGISTERED") ∧
    storeRecordField (data_variant_register req oid now store).1 oid "endpoint" =
      some (Json.str req.endpoint) ∧
    storeRecordField (data_variant_register req oid now store).1 oid "auth_type" =
      some (Json.str req.authType) ∧
    (data_variant_register req oid now store).2.1.statusCode = 200 ∧
    (data_variant_register req oid now store).2.2 = [] := by
  unfold data_variant_register
  rw [if_pos hvalid]
  refine ⟨?_, ?_, ?_, rfl, rfl⟩ <;>
  · unfold storeRecordField
    rw [alistGet_alistSet_self]
    rfl

/-- Witness for C8. -/
theorem data_variant_registers_verbatim_witness :
    storeRecordField
      (data_variant_register
        { endpoint := "http://data.example/api", authType := "bearer" }
        "o9" "t0" []).1 "o9" "status" = some (Json.str "REGISTERED") ∧
    (data_variant_register
      { endpoint := "http://data.example/api", authType := "bearer" }
      "o9" "t0" []).2.2 = [] := by
  have h := data_variant_registers_verbatim
    { endpoint := "http://data.example/api", authType := "bearer" } "o9" "t0" []
    (by decide)
  exact ⟨h.1, h.2.2.2.2⟩

/-- C7.  GET /orchestrator/status/{id}: an absent identifier yields the 404
error envelope; a present identifier yields a 200 envelope with status
SUCCESS, but - because the payload is passed positionally as the status_code
parameter - the body's status_code field holds the payload object and the
response field is None rather than the record's detail. -/
theorem status_detail_envelope_eval :
    orchestration_detail_get storeW "zz" "1.2.3.4" none =
      create_error_response (Json.str "Orchestration process not found")
        (Json.str "Process with ID zz does not exist") 404 ∧
    (orchestration_detail_get storeW "zz" "1.2.3.4" none).statusCode = 404 ∧
    jsonGet (orchestration_detail_get storeW "o1" "1.2.3.4" none).body "status" =
      some (Json.str "SUCCESS") ∧
    jsonGet (orchestration_detail_get storeW "o1" "1.2.3.4" none).body
      "status_code" =
      some (Json.obj [("orchestration_processes", Json.obj [("o1",
        Json.obj [("orchestration_id", Json.str "o1"),
          ("process_status", Json.str "INITIALIZING"),
          ("created_at", Json.str "t0"), ("updated_at", Json.str "t0"),
          ("properties", Json.obj [])])])]) ∧
    jsonGet (orchestration_detail_get storeW "o1" "1.2.3.4" none).body "response" =
      some Json.null ∧
    (orchestration_detail_get storeW "o1" "1.2.3.4" none).statusCode = 200 :=
  ⟨rfl, rfl, rfl, rfl, rfl, rfl⟩

/-- C6.  When the transfer-initiation call returns an HTTP error status, the
record transitions to FAILED with the connector's raw body stored verbatim in
its error field, and the caller receives an error envelope whose HTTP status
equals the connector's own status code and whose details carry the raw
body. -/
theorem initiation_http_error_surfaces_connector_status (cfg : OrchConfig)
    (parsed : ParsedRequest) (oid : String) (now : Timestamp) (ora : EdcOracle)
    (store : Store) (entry : DataEntry) (rest : List DataEntry) (code : Nat)
    (text : String)
    (hdata : parsed.data = entry :: rest)
    (hinit : ora.initiate 0 = Except.error (ReqFailure.httpError code text))
    (hcode : 400 ≤ code) :
    (postValidated cfg parsed oid now ora store).2 =
      create_error_response (Json.str "EDC API communication failed")
        (Json.str text) code ∧
    (postValidated cfg parsed oid now ora store).2.statusCode = code ∧
    jsonGet (postValidated cfg parsed oid now ora store).2.body "details" =
      some (Json.str text) ∧
    storeRecordField (postValidated cfg parsed oid now ora store).1 oid "status" =
      some (Json.str "FAILED") ∧
    storeRecordField (postValidated cfg parsed oid now ora store).1 oid "error" =
      some (Json.str text) := by
  have hpe : processEntries cfg parsed.connectorAddress
      (parseHostname parsed.connectorAddress) ora now oid (entry :: rest) 0
      (alistSet store oid (initRecord parsed now)) [] =
      (update_orchestration_status (alistSet store oid (initRecord parsed now))
        now oid "FAILED" [("error", Json.str text)],
       Except.ok (EntriesOutcome.earlyResponse
        (create_error_response (Json.str "EDC API communication failed")
          (Json.str text) code))) := by
    rw [processEntries, hinit]
    simp only [handle_edc_request]
    rw [if_pos (show (create_error_response
      (Json.str "EDC API communication failed") (Json.str text) code).statusCode
        ≥ 400 from hcode)]
  have hpost : postValidated cfg parsed oid now ora store =
      (update_orchestration_status (alistSet store oid (initRecord parsed now))
        now oid "FAILED" [("error", Json.str text)],
       create_error_response (Json.str "EDC API communication failed")
        (Json.str text) code) := by
    simp only [postValidated, hdata, hpe]
  rw [hpost]
  have hrec : alistGet (alistSet store oid (initRecord parsed now)) oid =
      some (initRecord parsed now) := alistGet_alistSet_self store oid _
  have hne : initRecord parsed now ≠ [] := by simp [initRecord]
  refine ⟨rfl, rfl, rfl, ?_, ?_⟩
  · exact storeRecordField_update_status _ now oid "FAILED" _ _ hrec hne
      (by intro p hp; simp only [List.mem_singleton] at hp; rw [hp]; simp)
  · exact storeRecordField_update_error _ now oid "FAILED" _ _ hrec hne

/-- Witness for C6 with a connector double answering HTTP 500. -/
theorem initiation_http_error_surfaces_connector_status_witness :
    (postValidated cfgEx parsedEx "o6" "t0" oraInitFail []).2.statusCode = 500 ∧
    storeRecordField (postValidated cfgEx parsedEx "o6" "t0" oraInitFail []).1
      "o6" "status" = some (Json.str "FAILED") ∧
    storeRecordField (postValidated cfgEx parsedEx "o6" "t0" oraInitFail []).1
      "o6" "error" = some (Json.str "server blew up") := by
  have h := initiation_http_error_surfaces_connector_status cfgEx parsedEx "o6"
    "t0" oraInitFail [] entryDE [] 500 "server blew up" rfl rfl (by omega)
  exact ⟨h.2.1, h.2.2.2.1, h.2.2.2.2⟩

theorem alistSet_ne_nil {α : Type} (d : List (String × α)) (k : String) (v : α) :
    alistSet d k v ≠ [] := by
  cases d with
  | nil => simp [alistSet]
  | cons p rest =>
      rw [alistSet]
      split <;> simp

theorem dictUpdate_ne_nil (d : Dict) (upds : Dict) (h : d ≠ []) :
    dictUpdate d upds ≠ [] := by
  induction upds generalizing d with
  | nil => exact h
  | cons p rest ih =>
      rw [dictUpdate_cons]
      exact ih (alistSet d p.1 p.2) (alistSet_ne_nil d p.1 p.2)

/-- The guarded update only ever writes a merged - hence non-empty - record,
so it preserves the invariant that any record present in the store is
non-empty. -/
theorem update_preserves_record_ne_nil (s : Store) (now : Timestamp)
    (oid2 st : String) (kwargs : Dict) (oid : String)
    (h : ∀ rec, alistGet s oid = some rec → rec ≠ []) :
    ∀ rec, alistGet (update_orchestration_status s now oid2 st kwargs) oid =
      some rec → rec ≠ [] := by
  intro rec hget
  unfold update_orchestration_status at hget
  cases hp : alistGet s oid2 with
  | none =>
      rw [hp] at hget
      exact h rec hget
  | some process =>
      rw [hp] at hget
      dsimp only at hget
      by_cases he : process.isEmpty = true
      · rw [if_pos he] at hget
        exact h rec hget
      · rw [if_neg he] at hget
        rw [alistGet_alistSet] at hget
        by_cases hk : oid2 = oid
        · rw [if_pos hk] at hget
          injection hget with h2
          subst h2
          rw [dictUpdate_cons]
          exact dictUpdate_ne_nil _ _ (alistSet_ne_nil _ _ _)
        · rw [if_neg hk] at hget
          exact h rec hget

theorem retrieveAux_preserves_record_ne_nil (poll : Nat → ReqResult) (delay : Nat)
    (now : Timestamp) (oid2 : String) (store : Store) (oid : String)
    (h : ∀ rec, alistGet store oid = some rec → rec ≠ []) :
    ∀ (r a : Nat) (L : Option ReqFailure) (rec : Record),
      alistGet (retrieveAux poll delay now oid2 store a r L).store oid =
        some rec → rec ≠ [] := by
  intro r
  induction r with
  | zero =>
      intro a L rec hget
      rw [retrieveAux] at hget
      exact update_preserves_record_ne_nil store now oid2 "FAILED" _ oid h rec hget
  | succ r ih =>
      intro a L rec hget
      rw [retrieveAux] at hget
      cases hp : poll a with
      | ok resp =>
          rw [hp] at hget
          dsimp only at hget
          cases hj : resp.jsonResult with
          | ok j =>
              rw [hj] at hget
              exact update_preserves_record_ne_nil store now oid2
                "DATA_ADDRESS_RETRIEVED" _ oid h rec hget
          | error m =>
              rw [hj] at hget
              exact ih (a + 1) (some (ReqFailure.other m)) rec hget
      | error exc =>
          rw [hp] at hget
          exact ih (a + 1) (some exc) rec hget

theorem handle_edc_preserves_record_ne_nil (rd : Json) (resp : ReqResult)
    (now : Timestamp) (oid2 ss : String) (store : Store) (oid : String)
    (h : ∀ rec, alistGet store oid = some rec → rec ≠ []) :
    ∀ rec, alistGet (handle_edc_request rd resp now oid2 ss store).1 oid =
      some rec → rec ≠ [] := by
  intro rec hget
  unfold handle_edc_request at hget
  split at hget
  · exact update_preserves_record_ne_nil store now oid2 "FAILED" _ oid h rec hget
  · exact h rec hget
  · split at hget
    · exact h rec hget
    · split at hget
      · dsimp only at hget
        split at hget
        · exact update_preserves_record_ne_nil store now oid2 ss _ oid h rec hget
        · exact h rec hget
      · exact h rec hget

theorem retrieve_preserves_record_ne_nil (poll : Nat → ReqResult)
    (delay maxRetries : Nat) (now : Timestamp) (oid2 : String) (store : Store)
    (oid : String) (h : ∀ rec, alistGet store oid = some rec → rec ≠ []) :
    ∀ rec,
      alistGet (retrieve_data_address poll delay maxRetries now oid2 store).store
        oid = some rec → rec ≠ [] := by
  unfold retrieve_data_address
  exact retrieveAux_preserves_record_ne_nil poll delay now oid2 store oid h
    maxRetries 0 none

/-- No step of the per-entry loop ever leaves an empty record in the store:
every store write merges into an existing record. -/
theorem processEntries_preserves_record_ne_nil (cfg : OrchConfig)
    (ca ch : String) (ora : EdcOracle) (now : Timestamp) (oid2 oid : String) :
    ∀ (entries : List DataEntry) (idx : Nat) (store : Store) (acc : List Json),
      (∀ rec, alistGet store oid = some rec → rec ≠ []) →
      ∀ rec,
        alistGet (processEntries cfg ca ch ora now oid2 entries idx store acc).1
          oid = some rec → rec ≠ [] := by
  intro entries
  induction entries with
  | nil =>
      intro idx store acc h rec hget
      exact h rec hget
  | cons e rest ih =>
      intro idx store acc h rec hget
      rw [processEntries] at hget
      split at hget
      case _ s1 exc heq =>
        refine (?_ : ∀ r2, alistGet s1 oid = some r2 → r2 ≠ []) rec hget
        have h1 : s1 = (handle_edc_request (edc_request_data e "HttpData-PULL")
            (ora.initiate idx) now oid2 "ASSET_REGISTERED" store).1 := by rw [heq]
        rw [h1]
        exact handle_edc_preserves_record_ne_nil _ _ now oid2 _ store oid h
      case _ s1 resp heq =>
        have hs1 : ∀ r2, alistGet s1 oid = some r2 → r2 ≠ [] := by
          have h1 : s1 = (handle_edc_request (edc_request_data e "HttpData-PULL")
              (ora.initiate idx) now oid2 "ASSET_REGISTERED" store).1 := by
            rw [heq]
          rw [h1]
          exact handle_edc_preserves_record_ne_nil _ _ now oid2 _ store oid h
        have hrr : ∀ r2,
            alistGet (retrieve_data_address (ora.poll idx) cfg.dataAddressDelay
              cfg.dataAddressMaxRetries now oid2 s1).store oid = some r2 →
            r2 ≠ [] :=
          retrieve_preserves_record_ne_nil (ora.poll idx) cfg.dataAddressDelay
            cfg.dataAddressMaxRetries now oid2 s1 oid hs1
        split at hget
        · exact hs1 rec hget
        · dsimp only at hget
          split at hget
          · exact hs1 rec hget
          · split at hget
            · exact hs1 rec hget
            · split at hget
              · exact hrr rec hget
              · split at hget
                · exact hrr rec hget
                · split at hget
                  · exact hrr rec hget
                  · split at hget
                    · exact hrr rec hget
                    · split at hget
                      · exact hrr rec hget
                      · split at hget
                        · exact hrr rec hget
                        · split at hget
                          · exact ih (idx + 1) _ _ hrr rec hget
                          · exact hrr rec hget
                          · exact hrr rec hget

/-- C4 amended.  Failures that escape as exceptions to post's generic handler
are recorded as FAILED (with the exception text) into the owning record
before the 500 envelope is returned; but the missing-authorization check and
data-plane download failures return their error envelope without touching the
record, which keeps its prior status (the last conjuncts exhibit the download
case; the missing-authorization case is the counterexample). -/
theorem errors_recorded_only_on_exception_paths (cfg : OrchConfig)
    (parsed : ParsedRequest) (oid : String) (now : Timestamp) (ora : EdcOracle)
    (store : Store) (s2 : Store) (exc : PyExc) (rec : Record)
    (hrun : processEntries cfg parsed.connectorAddress
      (parseHostname parsed.connectorAddress) ora now oid parsed.data 0
      (alistSet store oid (initRecord parsed now)) [] = (s2, Except.error exc))
    (hrec : alistGet s2 oid = some rec) :
    (postValidated cfg parsed oid now ora store).2 =
      create_error_response (Json.str exc.excStr) Json.null 500 ∧
    (postValidated cfg parsed oid now ora store).2.statusCode = 500 ∧
    storeRecordField (postValidated cfg parsed oid now ora store).1 oid "status" =
      some (Json.str "FAILED") ∧
    storeRecordField (postValidated cfg parsed oid now ora store).1 oid "error" =
      some (Json.str exc.excStr) ∧
    (post cfgEx (some "password") bodyEx "o1" "t0" oraDlFail []).2 =
      create_error_response (Json.str "Data download failed")
        (Json.str "download timed out") 500 ∧
    storeRecordField (post cfgEx (some "password") bodyEx "o1" "t0" oraDlFail []).1
      "o1" "status" = some (Json.str "DATA_ADDRESS_RETRIEVED") ∧
    storeRecordField (post cfgEx (some "password") bodyEx "o1" "t0" oraDlFail []).1
      "o1" "error" = none := by
  have hpost : postValidated cfg parsed oid now ora store =
      (update_orchestration_status s2 now oid "FAILED"
        [("error", Json.str exc.excStr)],
       create_error_response (Json.str exc.excStr) Json.null 500) := by
    simp only [postValidated, hrun]
  have hbase : ∀ r2, alistGet (alistSet store oid (initRecord parsed now)) oid =
      some r2 → r2 ≠ [] := by
    intro r2 hg2
    rw [alistGet_alistSet_self] at hg2
    injection hg2 with h2
    subst h2
    simp [initRecord]
  have hne : rec ≠ [] := by
    have hs2 : s2 = (processEntries cfg parsed.connectorAddress
        (parseHostname parsed.connectorAddress) ora now oid parsed.data 0
        (alistSet store oid (initRecord parsed now)) []).1 := by rw [hrun]
    rw [hs2] at hrec
    exact processEntries_preserves_record_ne_nil cfg parsed.connectorAddress
      (parseHostname parsed.connectorAddress) ora now oid oid parsed.data 0
      (alistSet store oid (initRecord parsed now)) [] hbase rec hrec
  rw [hpost]
  refine ⟨rfl, rfl, ?_, ?_, rfl, rfl, rfl⟩
  · exact storeRecordField_update_status _ now oid "FAILED" _ rec hrec hne
      (by intro p hp; simp only [List.mem_singleton] at hp; rw [hp]; simp)
  · exact storeRecordField_update_error _ now oid "FAILED" _ rec hrec hne

/-- Witness for the amended C4: a transfer-initiation response without @id
raises ValueError, which post's generic handler records as FAILED. -/
theorem errors_recorded_only_on_exception_paths_witness :
    (postValidated cfgEx parsedEx "o7" "t0" oraNoId []).2.statusCode = 500 ∧
    storeRecordField (postValidated cfgEx parsedEx "o7" "t0" oraNoId []).1
      "o7" "status" = some (Json.str "FAILED") ∧
    storeRecordField (postValidated cfgEx parsedEx "o7" "t0" oraNoId []).1
      "o7" "error" =
      some (Json.str "Invalid EDC response: missing resource ID") := by
  have h := errors_recorded_only_on_exception_paths cfgEx parsedEx "o7" "t0"
    oraNoId [] _ (PyExc.valueError "Invalid EDC response: missing resource ID")
    (initRecord parsedEx "t0") rfl rfl
  exact ⟨h.2.1, h.2.2.1, h.2.2.2.1⟩

